import Mathlib

/-!
Verification development for the release-agent UI client.

Shallow embedding of the client-side state logic of the repository:
auth token storage and verification cache, the HTTP response
normalization in `requestJson`, the session/job polling store, the
release-notes patch and single-item regenerate flows, the issue-detail
load error handling, and the stale-response discard for cluster fetches.
Machine timestamps are modelled as integers (epoch milliseconds).
-/

namespace ReleaseAgent

/-! ## Auth data model (src/app/context/AuthContext.tsx) -/

/-- The `AuthUser.source` enumeration. -/
inductive AuthSource
  | communityMd
  | extraAllowlist
  | accessControlDisabled
  deriving DecidableEq, Repr

/-- The `AuthUser = { login, source }`. -/
structure AuthUser where
  login : String
  source : AuthSource
  deriving DecidableEq, Repr

/-- The `AUTH_CACHE_TTL_MS = 5 * 60 * 1000`. -/
def AUTH_CACHE_TTL_MS : Int := 5 * 60 * 1000

/-- The JSON-parsed shape of the persisted auth cache entry.
`checkedAt = none` models a stored value whose `checkedAt` field is not a
number; `user = none` models a missing or mistyped `user` field (the
source checks `typeof parsed.checkedAt !== 'number'` and
`!parsed.user || typeof parsed.user.login !== 'string' || ...`). -/
structure RawAuthCacheEntry where
  token : String
  checkedAt : Option Int
  user : Option AuthUser
  deriving DecidableEq, Repr

/-- The `readAuthCache(token)` from AuthContext.tsx lines 53-67.
`store` is the parse result of `localStorage.getItem(AUTH_CACHE_KEY)`
(`none` covers both an absent key and a JSON parse failure, which the
source turns into `null` via `if (!raw) return null` / `catch`);
`now` is `Date.now()`. Guards are checked in source order:
token mismatch, non-numeric `checkedAt`, age strictly greater than the
TTL, then the user-shape guard. -/
def readAuthCache (store : Option RawAuthCacheEntry) (now : Int) (token : String) :
    Option AuthUser :=
  match store with
  | none => none
  | some parsed =>
    if parsed.token ≠ token then none
    else match parsed.checkedAt with
      | none => none
      | some checkedAt =>
        if now - checkedAt > AUTH_CACHE_TTL_MS then none
        else parsed.user

/-! ## Token storage (src/app/api/types.ts lines 242-264) -/

/-- The `localStorage` modelled as an association list from keys to values. -/
def LocalStorage := List (String × String)

/-- The `localStorage.getItem(key)`: the stored string, or `null`. -/
def LocalStorage.getItem (s : LocalStorage) (key : String) : Option String :=
  (List.find? (fun kv => kv.1 = key) s).map (fun kv => kv.2)

/-- The `localStorage.setItem(key, value)`. -/
def LocalStorage.setItem (s : LocalStorage) (key value : String) : LocalStorage :=
  (key, value) :: List.filter (fun kv => kv.1 ≠ key) s

/-- The `localStorage.removeItem(key)`. -/
def LocalStorage.removeItem (s : LocalStorage) (key : String) : LocalStorage :=
  List.filter (fun kv => kv.1 ≠ key) s

/-- JavaScript `String.prototype.trim`: strip leading and trailing
whitespace (modelled over the string's character list so that it is
kernel-executable). -/
def jsTrim (s : String) : String :=
  ⟨((s.data.dropWhile Char.isWhitespace).reverse.dropWhile Char.isWhitespace).reverse⟩

def AUTH_TOKEN_KEY : String := "release-agent.auth-token"

def LEGACY_GITHUB_TOKEN_KEY : String := "release-agent.github-token"

/-- The `getStoredAuthToken()`: reads the primary key, falling back (via the
nullish-coalescing operator, i.e. only when the primary item is `null`)
to the legacy key; a missing or whitespace-only value yields `null`,
otherwise the trimmed value. -/
def getStoredAuthToken (s : LocalStorage) : Option String :=
  let token := (s.getItem AUTH_TOKEN_KEY).orElse (fun _ => s.getItem LEGACY_GITHUB_TOKEN_KEY)
  match token with
  | none => none
  | some t => if ((jsTrim t).length = 0) then none else some (jsTrim t)

/-- The `setStoredAuthToken(token)`: stores the trimmed token under the
primary key and removes the legacy key. -/
def setStoredAuthToken (s : LocalStorage) (token : String) : LocalStorage :=
  (s.setItem AUTH_TOKEN_KEY (jsTrim token)).removeItem LEGACY_GITHUB_TOKEN_KEY

/-! ## HTTP client wrapper (src/app/api/client.ts) -/

/-- A JSON value, as returned by `res.json()`. -/
inductive JsonValue
  | null
  | bool (b : Bool)
  | num (n : Int)
  | str (s : String)
  | arr (xs : List JsonValue)
  | obj (fields : List (String × JsonValue))

/-- Object-field lookup, used for `body.message`. -/
def JsonValue.lookupField (v : JsonValue) (key : String) : Option JsonValue :=
  match v with
  | .obj fields => (List.find? (fun kv => kv.1 = key) fields).map (fun kv => kv.2)
  | _ => none

/-- The part of a `fetch` `Response` that `requestJson` inspects.
`body` is the JSON parse result of the response body: `none` models a
body that is not valid JSON (`safeReadJson` returns `undefined`, and
`res.json()` on a success path throws). -/
structure FetchResponse where
  status : Nat
  statusText : String
  body : Option JsonValue

/-- The `Response.ok`: status in the range 200-299. -/
def FetchResponse.ok (r : FetchResponse) : Bool :=
  decide (200 ≤ r.status) && decide (r.status ≤ 299)

/-- The `ApiError = { status, message, details? }`; `details` carries the
parsed error body when one existed. -/
structure ApiError where
  status : Nat
  message : String
  details : Option JsonValue

/-- The error-message selection of `requestJson`: the body's `message`
field when the body is an object carrying a string `message`, else the
fallback string built from the status code and status text.
(`typeof body === 'object' && body && 'message' in body &&
typeof body.message === 'string'`; a JSON array is an object in the
`typeof` sense but has no `message` field, so it also falls back.) -/
def errorMessageOf (r : FetchResponse) : String :=
  let fallback := toString r.status ++ " " ++ r.statusText
  match r.body with
  | some body =>
    match body.lookupField "message" with
    | some (JsonValue.str m) => m
    | _ => fallback
  | none => fallback

/-- The string `message` field carried by a parsed body, when there is
one (the condition of the source's ternary, as a partial projection). -/
def bodyStringMessage (body : Option JsonValue) : Option String :=
  match body with
  | some b =>
    match b.lookupField "message" with
    | some (JsonValue.str m) => some m
    | _ => none
  | none => none

/-- Outcome of `requestJson`: the thrown `ApiError` for a non-2xx
response, a thrown JSON parse error when a 2xx non-204 body is not valid
JSON, or the parsed body (`none` only for the 204 empty success). -/
inductive RequestOutcome
  | apiError (e : ApiError)
  | parseError
  | success (body : Option JsonValue)

/-- The `requestJson` from client.ts lines 21-55, applied to the response it
received: non-ok responses throw `{ status, message, details: body }`;
a 204 returns `undefined`; any other ok response returns the parsed
JSON body. -/
def requestJson (r : FetchResponse) : RequestOutcome :=
  if !r.ok then
    .apiError { status := r.status, message := errorMessageOf r, details := r.body }
  else if r.status = 204 then
    .success none
  else
    match r.body with
    | some v => .success (some v)
    | none => .parseError

/-! ## Session/job synchronization store (src/app/context/RunContext.tsx)

Timestamps (`createdAt`, `startedAt`, ...) are modelled as already-parsed
epoch milliseconds: an `Option Int` field is `none` exactly when the
source's `parseDate` would yield `undefined` (a `null` or unparsable ISO
string). -/

inductive JobStatus
  | pending | running | completed | failed
  deriving DecidableEq, Repr

inductive SessionStatus
  | draft | generating | ready | exported
  deriving DecidableEq, Repr

inductive JobType
  | parseChanges | generateNotes | analyzeHotspots | generateTestplan | generateTestchecklists
  deriving DecidableEq, Repr

structure SessionStats where
  changeCount : Nat
  releaseNotesCount : Nat
  hotspotsCount : Nat
  testCasesCount : Nat
  deriving DecidableEq, Repr

/-- The `ApiJob` from src/app/api/types.ts. -/
structure ApiJob where
  id : String
  sessionId : String
  type : JobType
  status : JobStatus
  progress : Nat
  startedAt : Option Int
  completedAt : Option Int
  error : Option String
  deriving DecidableEq, Repr

/-- UI-side `Job` from RunContext.tsx. -/
structure Job where
  id : String
  type : JobType
  status : JobStatus
  progress : Nat
  startedAt : Option Int
  completedAt : Option Int
  error : Option String
  deriving DecidableEq, Repr

/-- The `mapJob` from RunContext.tsx lines 58-68 (`parseDate` is the
identity on the already-parsed optional timestamps of this model). -/
def mapJob (job : ApiJob) : Job :=
  { id := job.id
    type := job.type
    status := job.status
    progress := job.progress
    startedAt := job.startedAt
    completedAt := job.completedAt
    error := job.error }

inductive NormalizeBy
  | pr | commit
  deriving DecidableEq, Repr

/-- The `ApiSessionOptions` (only `normalizeBy` is ever set by this client;
the remaining optional fields are never read). -/
structure SessionOptions where
  normalizeBy : Option NormalizeBy
  deriving DecidableEq, Repr

/-- The `ApiSession` from src/app/api/types.ts. -/
structure ApiSession where
  id : String
  repoFullName : String
  name : String
  status : SessionStatus
  baseRef : String
  headRef : String
  options : SessionOptions
  stats : SessionStats
  createdAt : Int
  updatedAt : Int
  deriving DecidableEq, Repr

/-- UI-side `Session` from RunContext.tsx. -/
structure Session where
  id : String
  repoFullName : String
  name : String
  status : SessionStatus
  baseRef : String
  headRef : String
  createdAt : Int
  updatedAt : Int
  jobs : List Job
  stats : SessionStats
  deriving DecidableEq, Repr

/-- The `mapSession` from RunContext.tsx lines 70-83. -/
def mapSession (session : ApiSession) (jobs : List ApiJob) : Session :=
  { id := session.id
    repoFullName := session.repoFullName
    name := session.name
    status := session.status
    baseRef := session.baseRef
    headRef := session.headRef
    createdAt := session.createdAt
    updatedAt := session.updatedAt
    jobs := jobs.map mapJob
    stats := session.stats }

/-- One background poll tick (RunContext.tsx lines 128-159), success
path: filter the snapshot to `generating` sessions, return early when
none, otherwise fetch the job list of each filtered session
(`resp` gives each response) and merge back by session id; any fetch
failure makes the whole tick a no-op on the store (the catch swallows
it), which changes no session either. Returns the new session list and
the list of session ids whose jobs were requested. -/
def pollTick (sessions : List Session) (resp : String → List ApiJob) :
    List Session × List String :=
  let sessionsToRefresh := sessions.filter (fun s => s.status = SessionStatus.generating)
  if sessionsToRefresh.isEmpty then (sessions, [])
  else
    let requested := sessionsToRefresh.map Session.id
    let jobsBySessionId : String → Option (List ApiJob) :=
      fun id => if id ∈ requested then some (resp id) else none
    let next := sessions.map (fun session =>
      match jobsBySessionId session.id with
      | some jobs => { session with jobs := jobs.map mapJob }
      | none => session)
    (next, requested)

structure CreateSessionData where
  name : String
  repoFullName : String
  baseRef : String
  headRef : String
  deriving DecidableEq, Repr

/-- Backend calls `createSession` can issue, recorded for the
no-network-call assertion. -/
inductive ApiRequest
  | createSession (data : CreateSessionData)
  | listJobs (sessionId : String)
  deriving DecidableEq, Repr

/-- Backend responses available when a base URL is configured. -/
structure ApiOracle where
  createSessionResp : CreateSessionData → ApiSession
  listJobsResp : String → List ApiJob

/-- The `createSession` from RunContext.tsx lines 161-197. With no API
configured (`api = none`) it builds the purely local synthetic session
(`id` = `session-` + `Date.now()`, status forced to `generating`, empty
jobs) and prepends it, issuing no request; with an API it creates the
session remotely, fetches its job list, and prepends the mapped result.
Returns the created session, the new store and the issued requests. -/
def createSession (api : Option ApiOracle) (data : CreateSessionData) (nowMs : Int)
    (prev : List Session) : Session × List Session × List ApiRequest :=
  match api with
  | none =>
    let newSession : Session :=
      { id := "session-" ++ toString nowMs
        repoFullName := data.repoFullName
        name := data.name
        status := SessionStatus.generating
        baseRef := data.baseRef
        headRef := data.headRef
        createdAt := nowMs
        updatedAt := nowMs
        jobs := []
        stats := ⟨0, 0, 0, 0⟩ }
    (newSession, newSession :: prev, [])
  | some o =>
    let created := o.createSessionResp data
    let jobs := o.listJobsResp created.id
    let ui := mapSession created jobs
    (ui, ui :: prev, [ApiRequest.createSession data, ApiRequest.listJobs created.id])

/-! ## Release notes page (src/app/pages/ReleaseNotesPage.tsx) -/

inductive ReleaseNoteStatus
  | ready | regenerating
  deriving DecidableEq, Repr

inductive SourceKind
  | pr | commit | manual
  deriving DecidableEq, Repr

structure NoteSource where
  kind : SourceKind
  ref : String
  deriving DecidableEq, Repr

/-- The `ApiReleaseNoteItem`; `status` is the optional
`'ready' | 'regenerating'` field. -/
structure ReleaseNoteItem where
  id : String
  text : String
  source : NoteSource
  excluded : Bool
  status : Option ReleaseNoteStatus
  deriving DecidableEq, Repr

structure ReleaseNoteSection where
  area : String
  items : List ReleaseNoteItem
  deriving DecidableEq, Repr

structure ReleaseNotesArtifact where
  sessionId : String
  sections : List ReleaseNoteSection
  deriving DecidableEq, Repr

/-- The `ApiPatchReleaseNotesOp`. -/
inductive PatchReleaseNotesOp
  | updateText (itemId : String) (text : String)
  | exclude (itemId : String)
  | includeItem (itemId : String)
  | addItem (itemId : String) (area : String) (text : String)
  deriving DecidableEq, Repr

/-- Component state of `ReleaseNotesPage` touched by `patch` and
`regenerateItem`: the artifact sections (null before first load), the
`regeneratingItems` set (modelled as a duplicate-free list) and the
page-level error string. -/
structure ReleaseNotesPageState where
  sections : Option (List ReleaseNoteSection)
  regeneratingItems : List String
  error : Option String
  deriving DecidableEq, Repr

/-- The `patch(operations)` from ReleaseNotesPage.tsx lines 77-87, applied
to the round-trip outcome: clears the error, then on success replaces
`sections` with the response's sections wholesale; on failure records
the error message. The operations only shape the request; the client
applies nothing locally from them. -/
def applyPatch (st : ReleaseNotesPageState) (_operations : List PatchReleaseNotesOp)
    (resp : Except ApiError ReleaseNotesArtifact) : ReleaseNotesPageState :=
  match resp with
  | .ok next => { st with error := none, sections := some next.sections }
  | .error e => { st with error := some e.message }

/-- The item lookup of the regenerate poll:
`artifact.sections.flatMap(s => s.items).find(i => i.id === itemId)`. -/
def findNoteItem (sections : List ReleaseNoteSection) (itemId : String) :
    Option ReleaseNoteItem :=
  (sections.flatMap ReleaseNoteSection.items).find? (fun i => i.id = itemId)

/-- One tick of the 2-second poll inside `regenerateItem`
(ReleaseNotesPage.tsx lines 96-119). Returns the new state and whether
the interval was cleared: a successful fetch whose item has left
`regenerating` clears the interval, removes the item from
`regeneratingItems` and stores the fetched sections; a fetch failure
clears the interval and removes the item; otherwise nothing changes and
polling continues. -/
def regenPollStep (itemId : String) (resp : Except ApiError ReleaseNotesArtifact)
    (st : ReleaseNotesPageState) : ReleaseNotesPageState × Bool :=
  match resp with
  | .ok artifact =>
    match findNoteItem artifact.sections itemId with
    | some item =>
      if item.status ≠ some ReleaseNoteStatus.regenerating then
        ({ st with regeneratingItems := st.regeneratingItems.erase itemId
                   sections := some artifact.sections }, true)
      else (st, false)
    | none => (st, false)
  | .error _ =>
    ({ st with regeneratingItems := st.regeneratingItems.erase itemId }, true)

/-- The poll ticks that fire before the 60-second timeout, run in order
until one clears the interval. -/
def regenPollLoop (itemId : String) (trace : List (Except ApiError ReleaseNotesArtifact))
    (st : ReleaseNotesPageState) : ReleaseNotesPageState × Bool :=
  match trace with
  | [] => (st, false)
  | resp :: rest =>
    let step := regenPollStep itemId resp st
    if step.2 then (step.1, true) else regenPollLoop itemId rest step.1

/-- The 60-second timeout callback (ReleaseNotesPage.tsx lines 121-128):
clears the interval and removes the item from `regeneratingItems`. -/
def regenTimeout (itemId : String) (st : ReleaseNotesPageState) : ReleaseNotesPageState :=
  { st with regeneratingItems := st.regeneratingItems.erase itemId }

/-- The whole `regenerateItem(itemId)` flow (ReleaseNotesPage.tsx lines
89-138): clear the error, add the item to `regeneratingItems`, trigger
the backend job; on trigger failure record the error and remove the
item; on success run the poll ticks (`trace`) bounded by the absolute
timeout, whose callback fires at 60 s and removes the item (removing an
absent item is a no-op). -/
def regenerateItem (itemId : String) (trigger : Except ApiError Unit)
    (trace : List (Except ApiError ReleaseNotesArtifact))
    (st : ReleaseNotesPageState) : ReleaseNotesPageState :=
  let st1 : ReleaseNotesPageState :=
    { st with error := none, regeneratingItems := st.regeneratingItems.insert itemId }
  match trigger with
  | .error e =>
    { st1 with error := some e.message
               regeneratingItems := st1.regeneratingItems.erase itemId }
  | .ok _ =>
    let run := regenPollLoop itemId trace st1
    if run.2 then run.1 else regenTimeout itemId run.1

/-- The rendered "Regenerating" badge condition (ReleaseNotesPage.tsx
line 224): `item.status === 'regenerating' || regeneratingItems.has(item.id)`,
with the item looked up in the locally held sections
(`effectiveSections = sections ?? []`). -/
def visiblyRegenerating (st : ReleaseNotesPageState) (itemId : String) : Bool :=
  (match findNoteItem (st.sections.getD []) itemId with
   | some item => item.status = some ReleaseNoteStatus.regenerating
   | none => false)
  || st.regeneratingItems.contains itemId

/-- Boolean test used to describe the timeout scenario: the poll
response keeps the item in `regenerating` (a successful fetch where the
item, when found, still has status `regenerating`). -/
def keepsRegenerating (itemId : String) (resp : Except ApiError ReleaseNotesArtifact) : Bool :=
  match resp with
  | .ok artifact =>
    match findNoteItem artifact.sections itemId with
    | some item => item.status = some ReleaseNoteStatus.regenerating
    | none => true
  | .error _ => false

/-! ## Issue detail page (IssueDetailPage, src/unnamed/part_005) -/

/-- The thrown value a page-level catch inspects: `status` is present
when the value carries a numeric `status` field (`getErrorStatus`),
`message` when it carries a string `message` field (`getErrorMessage`);
other thrown shapes have `none` for both. -/
structure ThrownError where
  status : Option Nat
  message : Option String
  deriving DecidableEq, Repr

/-- The `getErrorMessage` from IssueDetailPage. -/
def issueDetailErrorMessage (e : ThrownError) : String :=
  e.message.getD "Failed to load issue details"

/-- The `getErrorStatus` from IssueDetailPage. -/
def getErrorStatus (e : ThrownError) : Option Nat :=
  e.status

/-- The part of `ApiIssueDetailResponse` the model needs: the issue
identity (the detail payload is rendered, never transformed). -/
structure IssueDetailResponse where
  issueNumber : Nat
  title : String
  deriving DecidableEq, Repr

/-- Component state of `IssueDetailPage` touched by `load`. -/
structure IssueDetailState where
  detail : Option IssueDetailResponse
  isLoading : Bool
  error : Option String
  notFound : Bool
  deriving DecidableEq, Repr

/-- The `load` from IssueDetailPage applied to the round-trip outcome
(part_005 lines 39-58): set loading, clear `error` and `notFound`;
on success store the detail; on a thrown error with status 404 set
`notFound` and null out the detail; on any other thrown error set the
error message; finally clear loading. -/
def loadIssueDetail (prev : IssueDetailState)
    (resp : Except ThrownError IssueDetailResponse) : IssueDetailState :=
  let st : IssueDetailState := { prev with isLoading := true, error := none, notFound := false }
  let st' : IssueDetailState :=
    match resp with
    | .ok res => { st with detail := some res }
    | .error e =>
      if getErrorStatus e = some 404 then
        { st with notFound := true, detail := none }
      else
        { st with error := some (issueDetailErrorMessage e) }
  { st' with isLoading := false }

/-! ## Issue clusters page (IssueClustersPage, src/unnamed/part_004) -/

def CLUSTER_PAGE_LIMIT : Nat := 120

/-- The `selectedVersion` value: `undefined` = all versions, `null` =
unversioned, or a specific version string. -/
inductive VersionSel
  | allVersions
  | unversioned
  | version (v : String)
  deriving DecidableEq, Repr

/-- The version component of the cache/request key:
`_version ?? '__all__'` (nullish coalescing sends both `undefined` and
`null` to `'__all__'`). -/
def versionKeyPart : VersionSel → String
  | VersionSel.allVersions => "__all__"
  | VersionSel.unversioned => "__all__"
  | VersionSel.version v => v

/-- The logical query key of a cluster fetch:
`` `${repo}|${_version ?? '__all__'}|${productLabel}` ``. -/
def clusterKey (repo : String) (vsel : VersionSel) (productLabel : String) : String :=
  repo ++ "|" ++ versionKeyPart vsel ++ "|" ++ productLabel

/-- The fields of one `ApiIssueCluster` row the model tracks. -/
structure IssueCluster where
  clusterId : String
  size : Nat
  deriving DecidableEq, Repr

/-- The `listIssueClusters` response; optional fields model
`res.clusters ?? []`, `Boolean(res.isTruncated)` and
`res.limit ?? CLUSTER_PAGE_LIMIT`. -/
structure ClustersResponse where
  clusters : Option (List IssueCluster)
  isTruncated : Option Bool
  limit : Option Nat
  deriving DecidableEq, Repr

structure ClustersCacheEntry where
  clusters : List IssueCluster
  isTruncated : Bool
  limit : Nat
  deriving DecidableEq, Repr

/-- Component state of `IssueClustersPage` touched by `loadClusters`:
the monotone request counter (`clustersRequestIdRef`), the displayed
clusters, the truncation flag and fetch limit, the per-key cache
(`clustersCacheRef`, an association list standing in for the `Map`),
the loading flag and the error string. -/
structure ClustersPageState where
  requestId : Nat
  clusters : List IssueCluster
  clustersTruncated : Bool
  clusterFetchLimit : Nat
  cache : List (String × ClustersCacheEntry)
  isClustersLoading : Bool
  error : Option String
  deriving DecidableEq, Repr

/-- The `Map.get` on the cluster cache. -/
def cacheGet (cache : List (String × ClustersCacheEntry)) (key : String) :
    Option ClustersCacheEntry :=
  (List.find? (fun kv => kv.1 = key) cache).map (fun kv => kv.2)

/-- The `Map.set` on the cluster cache. -/
def cacheSet (cache : List (String × ClustersCacheEntry)) (key : String)
    (entry : ClustersCacheEntry) : List (String × ClustersCacheEntry) :=
  (key, entry) :: List.filter (fun kv => kv.1 ≠ key) cache

/-- The synchronous prefix of `loadClusters(_version, productLabel)`
(part_004 lines 109-131): with no API or no product label, clear the
cluster list and truncation flag and issue nothing; otherwise show the
cached entry for the key when present, claim the next request id by
incrementing the counter (`++clustersRequestIdRef.current`), and set the
loading flag when there was no cached entry. Returns the new state and
the sequence token of the issued request (`none` when no request was
issued). -/
def loadClustersStart (st : ClustersPageState) (apiConfigured : Bool) (repo : String)
    (vsel : VersionSel) (productLabel : Option String) :
    ClustersPageState × Option Nat :=
  match productLabel, apiConfigured with
  | some pl, true =>
    let key := clusterKey repo vsel pl
    let cached := cacheGet st.cache key
    let st1 :=
      match cached with
      | some c =>
        { st with clusters := c.clusters, clustersTruncated := c.isTruncated
                  clusterFetchLimit := c.limit }
      | none => st
    let rid := st1.requestId + 1
    let st2 :=
      { st1 with requestId := rid
                 isClustersLoading := if cached.isNone then true else st1.isClustersLoading }
    (st2, some rid)
  | _, _ =>
    ({ st with clusters := [], clustersTruncated := false }, none)

/-- The `loadClusters` error message selection
(`'message' in e ? String(e.message) : 'Failed to load clusters'`). -/
def clustersErrorMessage (e : ThrownError) : String :=
  e.message.getD "Failed to load clusters"

/-- The continuation of `loadClusters` once its response arrives
(part_004 lines 132-152): a response (or failure) whose sequence token
is no longer the most recently issued one is discarded entirely, the
`finally` clause included; a current success replaces the cluster list,
truncation flag and limit, stores the cache entry under the key and
clears the loading flag; a current failure records the error message and
clears the loading flag. -/
def loadClustersFinish (st : ClustersPageState) (key : String) (rid : Nat)
    (resp : Except ThrownError ClustersResponse) : ClustersPageState :=
  if rid ≠ st.requestId then st
  else
    match resp with
    | .ok res =>
      let nextClusters := res.clusters.getD []
      let nextIsTruncated := res.isTruncated.getD false
      let nextLimit := res.limit.getD CLUSTER_PAGE_LIMIT
      { st with clusters := nextClusters
                clustersTruncated := nextIsTruncated
                clusterFetchLimit := nextLimit
                cache := cacheSet st.cache key ⟨nextClusters, nextIsTruncated, nextLimit⟩
                isClustersLoading := false }
    | .error e =>
      { st with error := some (clustersErrorMessage e), isClustersLoading := false }

/-! ## Concrete sample data for the poll-scoping scenario -/

/-- A store `{A: generating, B: ready, C: generating}`; B holds one
completed job that a poll tick must not disturb. -/
def sampleSessions : List Session :=
  [⟨"A", "o/r", "A", SessionStatus.generating, "v1", "main", 0, 0, [], ⟨0, 0, 0, 0⟩⟩,
   ⟨"B", "o/r", "B", SessionStatus.ready, "v1", "main", 0, 0,
     [⟨"jb", JobType.parseChanges, JobStatus.completed, 100, none, none, none⟩], ⟨1, 0, 0, 0⟩⟩,
   ⟨"C", "o/r", "C", SessionStatus.generating, "v1", "main", 0, 0, [], ⟨0, 0, 0, 0⟩⟩]

/-- Job-list responses for the sample poll tick. -/
def sampleJobsResp : String → List ApiJob := fun id =>
  if id = "A" then [⟨"ja", "A", JobType.parseChanges, JobStatus.running, 50, none, none, none⟩]
  else if id = "C" then [⟨"jc", "C", JobType.generateNotes, JobStatus.pending, 0, none, none, none⟩]
  else []

/-! ## Theorems -/

/-- Storage helper: removing a key makes it unreadable. -/
theorem getItem_removeItem_self (s : LocalStorage) (k : String) :
    (s.removeItem k).getItem k = none := by
  unfold LocalStorage.removeItem LocalStorage.getItem
  rw [Option.map_eq_none', List.find?_eq_none]
  intro x hx
  have hmem := (List.mem_filter.mp hx).2
  simp only [ne_eq, decide_not, Bool.not_eq_true', decide_eq_false_iff_not] at hmem
  simp only [decide_eq_true_eq]
  exact hmem

/-- Storage helper: setting a key makes it read back as the set value. -/
theorem getItem_setItem_self (s : LocalStorage) (k v : String) :
    (s.setItem k v).getItem k = some v := by
  simp [LocalStorage.setItem, LocalStorage.getItem, List.find?]

/-- Storage helper: after `setStoredAuthToken`, the primary key reads
back as the trimmed token. -/
theorem setStoredAuthToken_reads_primary (s : LocalStorage) (token : String) :
    (setStoredAuthToken s token).getItem AUTH_TOKEN_KEY = some (jsTrim token) := by
  unfold setStoredAuthToken LocalStorage.setItem LocalStorage.removeItem LocalStorage.getItem
  simp [List.filter_cons, AUTH_TOKEN_KEY, LEGACY_GITHUB_TOKEN_KEY, List.find?]

/-- The message selection of `requestJson` equals the body's string
`message` field when present, else the status fallback. -/
theorem errorMessageOf_eq (r : FetchResponse) :
    errorMessageOf r = (bodyStringMessage r.body).getD (toString r.status ++ " " ++ r.statusText) := by
  unfold errorMessageOf bodyStringMessage
  cases r.body with
  | none => rfl
  | some b =>
    cases hb : b.lookupField "message" with
    | none => simp [hb]
    | some v => cases v <;> simp [hb]

/-- C9: `requestJson` normalizes every non-2xx response into a thrown
`{status, message, details?}` value, with the message falling back to
"<status> <statusText>" when the body has no string `message` field;
a 204 response is an empty success; any other 2xx response returns the
parsed JSON body. -/
theorem requestJson_spec (r : FetchResponse) :
    (¬ (200 ≤ r.status ∧ r.status ≤ 299) →
       requestJson r = RequestOutcome.apiError
         { status := r.status, message := errorMessageOf r, details := r.body }
       ∧ (bodyStringMessage r.body = none →
            errorMessageOf r = toString r.status ++ " " ++ r.statusText))
    ∧ (r.status = 204 → requestJson r = RequestOutcome.success none)
    ∧ (∀ v : JsonValue, 200 ≤ r.status → r.status ≤ 299 → r.status ≠ 204 →
         r.body = some v → requestJson r = RequestOutcome.success (some v)) := by
  refine ⟨fun h => ⟨?_, fun hm => ?_⟩, fun h204 => ?_, fun v h1 h2 h3 hb => ?_⟩
  · have hok : r.ok = false := by
      simp only [FetchResponse.ok, Bool.and_eq_false_iff, decide_eq_false_iff_not]
      omega
    simp [requestJson, hok]
  · rw [errorMessageOf_eq, hm]
    rfl
  · have hok : r.ok = true := by
      simp only [FetchResponse.ok, Bool.and_eq_true, decide_eq_true_eq]
      omega
    simp [requestJson, hok, h204]
  · have hok : r.ok = true := by
      simp only [FetchResponse.ok, Bool.and_eq_true, decide_eq_true_eq]
      omega
    simp [requestJson, hok, h3, hb]

/-- Witness for C9 at concrete responses: a 500 with a JSON-less body, a
204, and a 200 carrying a JSON object. -/
theorem requestJson_spec_witness :
    (requestJson ⟨500, "Internal Server Error", none⟩ =
       RequestOutcome.apiError
         { status := 500, message := errorMessageOf ⟨500, "Internal Server Error", none⟩,
           details := none }
     ∧ errorMessageOf ⟨500, "Internal Server Error", none⟩ = "500 Internal Server Error")
    ∧ requestJson ⟨204, "No Content", none⟩ = RequestOutcome.success none
    ∧ requestJson ⟨200, "OK", some (JsonValue.obj [])⟩ =
        RequestOutcome.success (some (JsonValue.obj [])) := by
  refine ⟨⟨?_, ?_⟩, ?_, ?_⟩
  · exact ((requestJson_spec ⟨500, "Internal Server Error", none⟩).1 (by decide)).1
  · exact ((requestJson_spec ⟨500, "Internal Server Error", none⟩).1 (by decide)).2 rfl
  · exact (requestJson_spec ⟨204, "No Content", none⟩).2.1 rfl
  · exact (requestJson_spec ⟨200, "OK", some (JsonValue.obj [])⟩).2.2
      (JsonValue.obj []) (by decide) (by decide) (by decide) rfl

/-- C6: `getStoredAuthToken` returns null with neither key set; returns
the trimmed legacy value when only the legacy key is set (to a
non-blank value — a blank value counts as unset throughout this module);
and `setStoredAuthToken` stores the trimmed token under the primary key
and removes the legacy key. -/
theorem storedAuthToken_spec :
    (∀ s : LocalStorage,
       s.getItem AUTH_TOKEN_KEY = none → s.getItem LEGACY_GITHUB_TOKEN_KEY = none →
       getStoredAuthToken s = none)
    ∧ (∀ (s : LocalStorage) (legacy : String),
       s.getItem AUTH_TOKEN_KEY = none → s.getItem LEGACY_GITHUB_TOKEN_KEY = some legacy →
       (jsTrim legacy).length ≠ 0 →
       getStoredAuthToken s = some (jsTrim legacy))
    ∧ (∀ (s : LocalStorage) (token : String),
       (setStoredAuthToken s token).getItem AUTH_TOKEN_KEY = some (jsTrim token)
       ∧ (setStoredAuthToken s token).getItem LEGACY_GITHUB_TOKEN_KEY = none) := by
  refine ⟨fun s h1 h2 => ?_, fun s legacy h1 h2 h3 => ?_, fun s token => ⟨?_, ?_⟩⟩
  · simp [getStoredAuthToken, h1, h2, Option.orElse]
  · simp [getStoredAuthToken, h1, h2, Option.orElse, h3]
  · exact setStoredAuthToken_reads_primary s token
  · exact getItem_removeItem_self _ LEGACY_GITHUB_TOKEN_KEY

/-- Witness for C6: an empty storage, a storage holding only the legacy
key, and a write over a storage holding the legacy key. -/
theorem storedAuthToken_spec_witness :
    getStoredAuthToken [] = none
    ∧ getStoredAuthToken [(LEGACY_GITHUB_TOKEN_KEY, " ghp_abc ")] = some "ghp_abc"
    ∧ (setStoredAuthToken [(LEGACY_GITHUB_TOKEN_KEY, "old")] " new ").getItem AUTH_TOKEN_KEY
        = some "new"
    ∧ (setStoredAuthToken [(LEGACY_GITHUB_TOKEN_KEY, "old")] " new ").getItem
        LEGACY_GITHUB_TOKEN_KEY = none := by
  refine ⟨?_, ?_, ?_, ?_⟩
  · exact storedAuthToken_spec.1 [] (by decide) (by decide)
  · exact storedAuthToken_spec.2.1 [(LEGACY_GITHUB_TOKEN_KEY, " ghp_abc ")] " ghp_abc "
      (by decide) (by decide) (by decide)
  · exact (storedAuthToken_spec.2.2 [(LEGACY_GITHUB_TOKEN_KEY, "old")] " new ").1
  · exact (storedAuthToken_spec.2.2 [(LEGACY_GITHUB_TOKEN_KEY, "old")] " new ").2

/-- C10: when the primary key holds a blank (empty or whitespace-only)
value, `getStoredAuthToken` returns null regardless of the legacy key's
contents: the nullish-coalescing fallback consults the legacy key only
when the primary item is entirely absent. -/
theorem getStoredAuthToken_blank_primary (s : LocalStorage) (w : String)
    (hp : s.getItem AUTH_TOKEN_KEY = some w) (hw : (jsTrim w).length = 0) :
    getStoredAuthToken s = none := by
  simp [getStoredAuthToken, hp, Option.orElse, hw]

/-- Witness for C10: a blank primary value next to a valid legacy token
still reads as null. -/
theorem getStoredAuthToken_blank_primary_witness :
    getStoredAuthToken [(AUTH_TOKEN_KEY, "   "), (LEGACY_GITHUB_TOKEN_KEY, "ghp_valid")] = none :=
  getStoredAuthToken_blank_primary [(AUTH_TOKEN_KEY, "   "), (LEGACY_GITHUB_TOKEN_KEY, "ghp_valid")]
    "   " (by decide) (by decide)

/-- C1 counterexample: an entry aged exactly the 5-minute TTL is still
returned by `readAuthCache` (the source expires only strictly older
entries), contradicting the claim that age exactly the TTL reads as
absent. -/
theorem readAuthCache_exact_ttl_counterexample :
    readAuthCache (some ⟨"t", some 0, some ⟨"octocat", AuthSource.communityMd⟩⟩)
      AUTH_CACHE_TTL_MS "t" = some ⟨"octocat", AuthSource.communityMd⟩ := by
  decide

/-- C1 (amended): `readAuthCache` returns the cached user exactly when
the stored entry's token equals the queried token, `checkedAt` is a
number, the user field is well-formed, and the age satisfies
`now - checkedAt ≤ TTL` — an entry aged exactly the TTL is still valid;
an entry aged 5min1s reads as absent, and an entry with a different
token is never returned. -/
theorem readAuthCache_valid_iff (store : Option RawAuthCacheEntry) (now : Int)
    (token : String) (u : AuthUser) :
    readAuthCache store now token = some u ↔
      ∃ e : RawAuthCacheEntry, store = some e ∧ e.token = token ∧
        (∃ c : Int, e.checkedAt = some c ∧ now - c ≤ AUTH_CACHE_TTL_MS) ∧
        e.user = some u := by
  cases store with
  | none => simp [readAuthCache]
  | some e =>
    by_cases ht : e.token = token
    · cases hc : e.checkedAt with
      | none => simp [readAuthCache, ht, hc]
      | some c =>
        by_cases hage : now - c > AUTH_CACHE_TTL_MS
        · simp only [readAuthCache, ht, hc, hage]
          simp [ht, hc]
          intro c' hc'
          omega
        · simp only [readAuthCache, ht, hc, hage]
          simp [ht, hc]
          omega
    · simp [readAuthCache, ht]

/-- C5: with no backend configured, `createSession` starting from an
empty store leaves exactly one session, with status `generating`, empty
jobs, id `session-<timestamp>` (the `Date.now()` value at the call), and
issues no network request. -/
theorem createSession_no_backend (data : CreateSessionData) (nowMs : Int) :
    (createSession none data nowMs []).2.1 = [(createSession none data nowMs []).1]
    ∧ (createSession none data nowMs []).1.status = SessionStatus.generating
    ∧ (createSession none data nowMs []).1.jobs = []
    ∧ (createSession none data nowMs []).1.id = "session-" ++ toString nowMs
    ∧ (createSession none data nowMs []).2.2 = [] :=
  ⟨rfl, rfl, rfl, rfl, rfl⟩

/-- C8: a successful release-notes patch replaces the whole `sections`
state with exactly the response body's sections, for every prior state
and operation batch — no local merge — and clears the page error. -/
theorem patch_replaces_sections_wholesale (st : ReleaseNotesPageState)
    (operations : List PatchReleaseNotesOp) (artifact : ReleaseNotesArtifact) :
    (applyPatch st operations (Except.ok artifact)).sections = some artifact.sections
    ∧ (applyPatch st operations (Except.ok artifact)).error = none :=
  ⟨rfl, rfl⟩

/-- C7: a 404 from the issue-detail endpoint sets `notFound` and nulls
the detail without touching the generic error; any other thrown failure
sets the error message, leaves `notFound` false and keeps the previous
detail. -/
theorem issueDetail_load_errors (prev : IssueDetailState) (e : ThrownError) :
    (getErrorStatus e = some 404 →
       loadIssueDetail prev (Except.error e)
         = { detail := none, isLoading := false, error := none, notFound := true })
    ∧ (getErrorStatus e ≠ some 404 →
       (loadIssueDetail prev (Except.error e)).error = some (issueDetailErrorMessage e)
       ∧ (loadIssueDetail prev (Except.error e)).notFound = false
       ∧ (loadIssueDetail prev (Except.error e)).detail = prev.detail) := by
  constructor
  · intro h
    simp [loadIssueDetail, h]
  · intro h
    simp [loadIssueDetail, h]

/-- Witness for C7: a 404 and a 500 against a state holding a previously
loaded detail. -/
theorem issueDetail_load_errors_witness :
    loadIssueDetail ⟨some ⟨7, "t"⟩, false, none, false⟩
        (Except.error ⟨some 404, some "Not Found"⟩)
      = { detail := none, isLoading := false, error := none, notFound := true }
    ∧ (loadIssueDetail ⟨some ⟨7, "t"⟩, false, none, false⟩
          (Except.error ⟨some 500, some "boom"⟩)).error = some "boom"
    ∧ (loadIssueDetail ⟨some ⟨7, "t"⟩, false, none, false⟩
          (Except.error ⟨some 500, some "boom"⟩)).notFound = false
    ∧ (loadIssueDetail ⟨some ⟨7, "t"⟩, false, none, false⟩
          (Except.error ⟨some 500, some "boom"⟩)).detail = some ⟨7, "t"⟩ := by
  refine ⟨?_, ?_, ?_, ?_⟩
  · exact (issueDetail_load_errors ⟨some ⟨7, "t"⟩, false, none, false⟩
      ⟨some 404, some "Not Found"⟩).1 (by decide)
  · exact ((issueDetail_load_errors ⟨some ⟨7, "t"⟩, false, none, false⟩
      ⟨some 500, some "boom"⟩).2 (by decide)).1
  · exact ((issueDetail_load_errors ⟨some ⟨7, "t"⟩, false, none, false⟩
      ⟨some 500, some "boom"⟩).2 (by decide)).2.1
  · exact ((issueDetail_load_errors ⟨some ⟨7, "t"⟩, false, none, false⟩
      ⟨some 500, some "boom"⟩).2 (by decide)).2.2

/-- Regenerate-poll helper: a tick whose response keeps the item
regenerating changes nothing and keeps the interval alive. -/
theorem regenPollStep_keeps (itemId : String) (r : Except ApiError ReleaseNotesArtifact)
    (st : ReleaseNotesPageState) (h : keepsRegenerating itemId r = true) :
    regenPollStep itemId r st = (st, false) := by
  cases r with
  | error e => simp [keepsRegenerating] at h
  | ok artifact =>
    simp only [keepsRegenerating] at h
    cases hf : findNoteItem artifact.sections itemId with
    | none => simp [regenPollStep, hf]
    | some item =>
      rw [hf] at h
      simp only [decide_eq_true_eq] at h
      simp [regenPollStep, hf, h]

/-- Regenerate-poll helper: a poll run all of whose ticks keep the item
regenerating ends with the state unchanged and the interval still
alive. -/
theorem regenPollLoop_keeps (itemId : String)
    (trace : List (Except ApiError ReleaseNotesArtifact)) (st : ReleaseNotesPageState)
    (h : ∀ r ∈ trace, keepsRegenerating itemId r = true) :
    regenPollLoop itemId trace st = (st, false) := by
  induction trace with
  | nil => rfl
  | cons r rest ih =>
    have hr := h r (List.mem_cons_self r rest)
    unfold regenPollLoop
    rw [regenPollStep_keeps itemId r st hr]
    simpa using ih (fun r' hr' => h r' (List.mem_cons_of_mem r hr'))

/-- C2 counterexample: with an item whose locally held status is
`ready`, a successful trigger, and every poll within the 60-second
window reporting the item still `regenerating`, the timeout fires and
the final state shows no regenerating mark for the item — the mark is
silently cleared, contradicting the claim that the item remains visibly
marked. -/
theorem regenerate_timeout_counterexample :
    visiblyRegenerating
      (regenerateItem "x" (Except.ok ())
        (List.replicate 29 (Except.ok ⟨"s1", [⟨"General",
          [⟨"x", "old text", ⟨SourceKind.commit, "abc123"⟩, false,
            some ReleaseNoteStatus.regenerating⟩]⟩]⟩))
        ⟨some [⟨"General", [⟨"x", "old text", ⟨SourceKind.commit, "abc123"⟩, false,
          some ReleaseNoteStatus.ready⟩]⟩], [], none⟩)
      "x" = false := by
  decide

/-- C2 (amended): if the item's status never leaves `regenerating`
within the absolute timeout, polling stops unconditionally once the
timeout elapses, and the timeout callback removes the item from the
local `regeneratingItems` set: the final state has the sections
unchanged, the error cleared, and the regenerating mark cleared (the
item is shown regenerating afterwards only if the locally held sections
record its status as `regenerating`, which the poll loop never stores
while the status stays `regenerating`). -/
theorem regenerate_timeout_spec (itemId : String) (st0 : ReleaseNotesPageState)
    (trace : List (Except ApiError ReleaseNotesArtifact))
    (hkeep : ∀ r ∈ trace, keepsRegenerating itemId r = true)
    (hnotin : itemId ∉ st0.regeneratingItems) :
    regenerateItem itemId (Except.ok ()) trace st0 = { st0 with error := none } := by
  unfold regenerateItem
  have hloop := regenPollLoop_keeps itemId trace
    { st0 with error := none, regeneratingItems := st0.regeneratingItems.insert itemId } hkeep
  simp only [hloop]
  unfold regenTimeout
  have hcancel : (st0.regeneratingItems.insert itemId).erase itemId = st0.regeneratingItems := by
    rw [List.insert_of_not_mem hnotin, List.erase_cons_head]
  simp [hcancel]

/-- Witness for C2's amended statement: the same timeout scenario as the
counterexample, resolved by the amended theorem. -/
theorem regenerate_timeout_spec_witness :
    regenerateItem "y" (Except.ok ())
      (List.replicate 29 (Except.ok ⟨"s1", [⟨"General",
        [⟨"y", "text", ⟨SourceKind.commit, "def456"⟩, false,
          some ReleaseNoteStatus.regenerating⟩]⟩]⟩))
      ⟨some [⟨"General", [⟨"y", "text", ⟨SourceKind.commit, "def456"⟩, false,
        some ReleaseNoteStatus.ready⟩]⟩], [], none⟩
    = { sections := some [⟨"General", [⟨"y", "text", ⟨SourceKind.commit, "def456"⟩, false,
          some ReleaseNoteStatus.ready⟩]⟩], regeneratingItems := [], error := none } :=
  regenerate_timeout_spec "y" _ _ (by decide) (by decide)

/-- Generic list helper: mapping a function that fixes every element is
the identity. -/
theorem list_map_id_of {α : Type} (l : List α) (f : α → α) (h : ∀ a ∈ l, f a = a) :
    l.map f = l := by
  induction l with
  | nil => rfl
  | cons a t ih => simp [h a (by simp), ih (fun b hb => h b (by simp [hb]))]

/-- Generic list helper: pointwise-equal functions map equally. -/
theorem list_map_congr {α β : Type} (l : List α) (f g : α → β) (h : ∀ a ∈ l, f a = g a) :
    l.map f = l.map g := by
  induction l with
  | nil => rfl
  | cons a t ih => simp [h a (by simp), ih (fun b hb => h b (by simp [hb]))]

/-- Poll helper: with pairwise-distinct session ids, a session's id is
among the requested (generating) ids iff the session itself is
generating. -/
theorem mem_generating_ids_iff (sessions : List Session)
    (hnd : (sessions.map Session.id).Nodup) (s : Session) (hs : s ∈ sessions) :
    s.id ∈ (sessions.filter (fun t => t.status = SessionStatus.generating)).map Session.id
      ↔ s.status = SessionStatus.generating := by
  constructor
  · intro h
    rcases List.mem_map.mp h with ⟨t, htf, hid⟩
    rcases List.mem_filter.mp htf with ⟨htmem, htgen⟩
    have hts : t = s := List.inj_on_of_nodup_map hnd htmem hs hid
    simp only [decide_eq_true_eq] at htgen
    rw [← hts]
    exact htgen
  · intro h
    exact List.mem_map.mpr ⟨s, List.mem_filter.mpr ⟨hs, by simp [h]⟩, rfl⟩

/-- C3: a background poll tick requests job lists exactly for the
sessions in `generating` status, and (session ids being pairwise
distinct) rewrites the store by replacing only the generating sessions'
jobs with the fetched ones — every session not in `generating` status,
i.e. not in the response set, is left untouched. -/
theorem pollTick_spec (sessions : List Session) (resp : String → List ApiJob)
    (hnd : (sessions.map Session.id).Nodup) :
    (pollTick sessions resp).2
      = (sessions.filter (fun s => s.status = SessionStatus.generating)).map Session.id
    ∧ (pollTick sessions resp).1
      = sessions.map (fun s =>
          if s.status = SessionStatus.generating
          then { s with jobs := (resp s.id).map mapJob } else s) := by
  unfold pollTick
  by_cases hemp : (sessions.filter (fun s => s.status = SessionStatus.generating)).isEmpty
  · have hnil : sessions.filter (fun s => s.status = SessionStatus.generating) = [] := by
      simpa using hemp
    refine ⟨by simp [hemp, hnil], ?_⟩
    simp only [hemp, if_true]
    symm
    apply list_map_id_of
    intro s hs
    have hsg : s.status ≠ SessionStatus.generating := by
      intro hg
      have : s ∈ sessions.filter (fun t => t.status = SessionStatus.generating) :=
        List.mem_filter.mpr ⟨hs, by simp [hg]⟩
      rw [hnil] at this
      exact absurd this (List.not_mem_nil s)
    simp [hsg]
  · refine ⟨by simp [hemp], ?_⟩
    simp only [hemp, if_false]
    apply list_map_congr
    intro s hs
    by_cases hg : s.status = SessionStatus.generating
    · have hmem : s.id ∈ (sessions.filter
          (fun t => t.status = SessionStatus.generating)).map Session.id :=
        (mem_generating_ids_iff sessions hnd s hs).mpr hg
      simp [hmem, hg]
    · have hmem : s.id ∉ (sessions.filter
          (fun t => t.status = SessionStatus.generating)).map Session.id := by
        intro hc
        exact hg ((mem_generating_ids_iff sessions hnd s hs).mp hc)
      simp [hmem, hg]

/-- Witness for C3 at the `{A: generating, B: ready, C: generating}`
store: exactly A and C are requested, and B's entry (jobs included) is
bit-for-bit unchanged. -/
theorem pollTick_spec_witness :
    ((sampleSessions.map Session.id).Nodup
      ∧ (pollTick sampleSessions sampleJobsResp).2
          = (sampleSessions.filter
              (fun s => s.status = SessionStatus.generating)).map Session.id
      ∧ (pollTick sampleSessions sampleJobsResp).1
          = sampleSessions.map (fun s =>
              if s.status = SessionStatus.generating
              then { s with jobs := (sampleJobsResp s.id).map mapJob } else s))
    ∧ (pollTick sampleSessions sampleJobsResp).2 = ["A", "C"]
    ∧ (pollTick sampleSessions sampleJobsResp).1.get? 1 = sampleSessions.get? 1 := by
  refine ⟨⟨by decide, pollTick_spec sampleSessions sampleJobsResp (by decide)⟩, by decide, by decide⟩

/-- Cluster helper: a response whose sequence token is no longer the
most recently issued one leaves the state entirely unchanged. -/
theorem loadClustersFinish_stale (st : ClustersPageState) (key : String) (rid : Nat)
    (resp : Except ThrownError ClustersResponse) (h : rid ≠ st.requestId) :
    loadClustersFinish st key rid resp = st := by
  simp [loadClustersFinish, h]

/-- Cluster helper: issuing a request returns the new counter value as
its token and increments the counter by one. -/
theorem loadClustersStart_requestId (st : ClustersPageState) (repo : String)
    (vsel : VersionSel) (pl : String) :
    (loadClustersStart st true repo vsel (some pl)).2
      = some (loadClustersStart st true repo vsel (some pl)).1.requestId
    ∧ (loadClustersStart st true repo vsel (some pl)).1.requestId = st.requestId + 1 := by
  unfold loadClustersStart
  cases hc : cacheGet st.cache (clusterKey repo vsel pl) <;> simp [hc]

/-- Cluster helper: a response carrying the current token is applied:
the clusters become the response's list and the counter is untouched. -/
theorem loadClustersFinish_current_ok (st : ClustersPageState) (key : String)
    (res : ClustersResponse) :
    (loadClustersFinish st key st.requestId (Except.ok res)).clusters = res.clusters.getD []
    ∧ (loadClustersFinish st key st.requestId (Except.ok res)).requestId = st.requestId := by
  simp [loadClustersFinish]

/-- C4: cluster fetches discard superseded responses: a response is
applied only while its request-sequence token is still the most recently
issued one (a stale token leaves the state entirely unchanged), and in
the interleaving "issue Q1, issue Q2 for the same key, Q2's response
arrives, then Q1's response arrives" the final clusters are exactly
Q2's. -/
theorem loadClusters_stale_discard :
    (∀ (st : ClustersPageState) (key : String) (rid : Nat)
       (resp : Except ThrownError ClustersResponse),
       rid ≠ st.requestId → loadClustersFinish st key rid resp = st)
    ∧ (∀ (st0 : ClustersPageState) (repo : String) (vsel : VersionSel) (pl : String)
       (res1 res2 : ClustersResponse),
       (loadClustersFinish
          (loadClustersFinish
            (loadClustersStart (loadClustersStart st0 true repo vsel (some pl)).1
              true repo vsel (some pl)).1
            (clusterKey repo vsel pl)
            (loadClustersStart (loadClustersStart st0 true repo vsel (some pl)).1
              true repo vsel (some pl)).1.requestId
            (Except.ok res2))
          (clusterKey repo vsel pl)
          (loadClustersStart st0 true repo vsel (some pl)).1.requestId
          (Except.ok res1)).clusters
        = res2.clusters.getD []) := by
  refine ⟨loadClustersFinish_stale, ?_⟩
  intro st0 repo vsel pl res1 res2
  have hid2 := (loadClustersStart_requestId
    (loadClustersStart st0 true repo vsel (some pl)).1 repo vsel pl).2
  have h2 := loadClustersFinish_current_ok
    (loadClustersStart (loadClustersStart st0 true repo vsel (some pl)).1
      true repo vsel (some pl)).1
    (clusterKey repo vsel pl) res2
  have hne : (loadClustersStart st0 true repo vsel (some pl)).1.requestId
      ≠ (loadClustersFinish
          (loadClustersStart (loadClustersStart st0 true repo vsel (some pl)).1
            true repo vsel (some pl)).1
          (clusterKey repo vsel pl)
          (loadClustersStart (loadClustersStart st0 true repo vsel (some pl)).1
            true repo vsel (some pl)).1.requestId
          (Except.ok res2)).requestId := by
    rw [h2.2, hid2]
    omega
  rw [loadClustersFinish_stale _ _ _ _ hne]
  exact h2.1

/-- Witness for C4: a stale token at a concrete state is discarded, and
the concrete Q1/Q2 interleaving ends with Q2's single cluster. -/
theorem loadClusters_stale_discard_witness :
    ((3 : Nat) ≠ (⟨5, [], false, 120, [], false, none⟩ : ClustersPageState).requestId
      ∧ loadClustersFinish ⟨5, [], false, 120, [], false, none⟩ "k" 3
          (Except.ok ⟨none, none, none⟩) = ⟨5, [], false, 120, [], false, none⟩)
    ∧ (loadClustersFinish
          (loadClustersFinish
            (loadClustersStart (loadClustersStart ⟨0, [], false, 120, [], false, none⟩
              true "o/r" VersionSel.allVersions (some "CmdPal")).1
              true "o/r" VersionSel.allVersions (some "CmdPal")).1
            (clusterKey "o/r" VersionSel.allVersions "CmdPal")
            (loadClustersStart (loadClustersStart ⟨0, [], false, 120, [], false, none⟩
              true "o/r" VersionSel.allVersions (some "CmdPal")).1
              true "o/r" VersionSel.allVersions (some "CmdPal")).1.requestId
            (Except.ok ⟨some [⟨"c2", 4⟩], none, none⟩))
          (clusterKey "o/r" VersionSel.allVersions "CmdPal")
          (loadClustersStart ⟨0, [], false, 120, [], false, none⟩
            true "o/r" VersionSel.allVersions (some "CmdPal")).1.requestId
          (Except.ok ⟨some [⟨"c1", 9⟩], none, none⟩)).clusters
        = [⟨"c2", 4⟩] := by
  refine ⟨⟨by decide, ?_⟩, ?_⟩
  · exact loadClusters_stale_discard.1 ⟨5, [], false, 120, [], false, none⟩ "k" 3
      (Except.ok ⟨none, none, none⟩) (by decide)
  · exact loadClusters_stale_discard.2 ⟨0, [], false, 120, [], false, none⟩ "o/r"
      VersionSel.allVersions "CmdPal" ⟨some [⟨"c1", 9⟩], none, none⟩
      ⟨some [⟨"c2", 4⟩], none, none⟩

end ReleaseAgent
